import Mathlib

/-!
Verification of the storage-access core of the JAORMX/openfga repository.

The development shallowly embeds the Go sources:
  * `pkg/storage/storagewrappers/boundedconcurrency.go` — the
    concurrency-bounded tuple reader (a decorator over a storage reader
    that limits simultaneous in-flight reads with a buffered channel used
    as a counting semaphore, and records wait telemetry);
  * `cmd/openfga/openfga.go` — the composition root (`svcConfig`,
    `buildServerAndDatastore`, `main`);
  * the migration file defining `up005` and `down005` (ordered statement
    sequences run against a transaction handle).

Machine integers are modelled as `Nat`/`Int`; fallible Go code returns
`Except`/`Option`; the buffered channel is modelled by its occupancy, and
blocking is modelled either by an `Option` result (`none` = the call has
not completed because the channel send is still blocked) or, for the
concurrency claims, by a small-step transition system over call phases.
-/

set_option autoImplicit false

namespace OpenFGA

/-! ### Data model: tuples, keys, filters (openfgapb / pkg/storage types) -/

/-- A tuple key `(object, relation, user)` — `openfgapb.TupleKey`. -/
structure TupleKey where
  object : String
  relation : String
  user : String
deriving DecidableEq, Repr

/-- A stored relationship tuple — `openfgapb.Tuple` (the key; the stored
timestamp is irrelevant to every claim and omitted). -/
structure Tuple where
  key : TupleKey
deriving DecidableEq, Repr

/-- `storage.ReadUsersetTuplesFilter`: a partial filter for userset reads. -/
structure ReadUsersetTuplesFilter where
  object : String
  relation : String
deriving DecidableEq, Repr

/-- Errors surfaced by storage operations, modelled by their message. -/
abbrev Err : Type := String

/-- A materialized `storage.TupleIterator`: the finite sequence an iterator
produces, in engine order. -/
abbrev TupleIterator : Type := List Tuple

/-- A Go `context.Context`, reduced to what the embedded code consumes:
whether its cancellation/deadline signal has fired, and the identity of the
ambient trace span (`trace.SpanFromContext`). -/
structure Context where
  canceled : Bool
  span : Nat
deriving DecidableEq, Repr

/-- `storage.RelationshipTupleReader`: the reader capability set. Each
method is a total function from its arguments to its Go results; a method
call on the wrapped engine is modelled by applying the field. -/
structure RelationshipTupleReader where
  Read : Context → String → TupleKey → Except Err TupleIterator
  ReadUserTuple : Context → String → TupleKey → Except Err Tuple
  ReadUsersetTuples : Context → String → ReadUsersetTuplesFilter → Except Err TupleIterator

/-! ### Telemetry (prometheus histogram, otel span attributes) -/

/-- The statically relevant fields of `prometheus.HistogramOpts` used by
`boundedReadDelayMsHistogram`: metric name and bucket boundaries. The
bucket boundaries in the source are the float literals
`{1, 3, 5, 10, 25, 50, 100, 1000, 5000}` (all integral), kept as `Int`. -/
structure HistogramOpts where
  name : String
  buckets : List Int
deriving DecidableEq, Repr

/-- `boundedReadDelayMsHistogram` from boundedconcurrency.go lines 19-28. -/
def boundedReadDelayMsHistogram : HistogramOpts :=
  { name := "datastore_bounded_read_delay_ms"
    buckets := [1, 3, 5, 10, 25, 50, 100, 1000, 5000] }

/-- `timeWaitingSpanAttribute` from boundedconcurrency.go line 15. -/
def timeWaitingSpanAttribute : String := "time_waiting"

/-- The telemetry emitted so far: the sequence of values observed on
`boundedReadDelayMsHistogram` (milliseconds), and the span attributes set
(`(span identity, key, integer value)`). -/
structure Telemetry where
  histObservations : List Int
  spanAttrs : List (Nat × String × Int)
deriving DecidableEq, Repr

/-- Telemetry state with nothing emitted. -/
def Telemetry.empty : Telemetry := { histObservations := [], spanAttrs := [] }

/-! ### The bounded-concurrency reader (boundedconcurrency.go) -/

/-- The buffered channel `limiter chan struct\x7b\x7d` modelled by its
capacity (the `concurrency` buffer size) and current occupancy `held`
(tokens sent and not yet received). -/
structure LimiterState where
  capacity : Nat
  held : Nat
deriving DecidableEq, Repr

/-- A send `b.limiter <- struct\x7b\x7d\x7b\x7d` on the buffered channel:
succeeds exactly when the buffer has room, otherwise the sender blocks
(`none`). -/
def LimiterState.tryAcquire (s : LimiterState) : Option LimiterState :=
  if s.held < s.capacity then some { s with held := s.held + 1 } else none

/-- A receive `<-b.limiter` (the deferred release). -/
def LimiterState.release (s : LimiterState) : LimiterState :=
  { s with held := s.held - 1 }

/-- `boundedConcurrencyTupleReader`: the wrapped reader plus the limiter
channel. -/
structure boundedConcurrencyTupleReader where
  wrapped : RelationshipTupleReader
  limiter : LimiterState

/-- `NewBoundedConcurrencyTupleReader` (boundedconcurrency.go lines 38-43):
wraps a reader with a fresh limiter channel of buffer size `concurrency`
(initially empty). -/
def NewBoundedConcurrencyTupleReader (wrapped : RelationshipTupleReader)
    (concurrency : Nat) : boundedConcurrencyTupleReader :=
  { wrapped := wrapped
    limiter := { capacity := concurrency, held := 0 } }

/-- `waitForLimiter` (boundedconcurrency.go lines 75-85). The source
blocks on `b.limiter <- struct\x7b\x7d\x7b\x7d` with no select on
`ctx.Done()`; `none` models that the send is still blocked. On success the
measured wait (`waited`, in milliseconds, a parameter because wall-clock
time is external) is observed once on the histogram and set once as the
`time_waiting` span attribute of the ambient span of `ctx`. The function
returns no error: the context is consulted only to find the span. -/
def waitForLimiter (ctx : Context) (s : LimiterState) (waited : Int)
    (t : Telemetry) : Option (LimiterState × Telemetry) :=
  match s.tryAcquire with
  | none => none
  | some acquired =>
      some (acquired,
        { histObservations := t.histObservations ++ [waited]
          spanAttrs := t.spanAttrs ++ [(ctx.span, timeWaitingSpanAttribute, waited)] })

/-- `boundedConcurrencyTupleReader.ReadUserTuple` (lines 45-53):
`waitForLimiter`, then delegate to the wrapped reader, the deferred
`<-b.limiter` releasing the unit as the method returns. The returned
triple is (delegated result, limiter state at return, telemetry);
`none` models a call still blocked in `waitForLimiter`. -/
def boundedConcurrencyTupleReader.ReadUserTuple
    (b : boundedConcurrencyTupleReader) (ctx : Context) (store : String)
    (tupleKey : TupleKey) (waited : Int) (t : Telemetry) :
    Option (Except Err Tuple × LimiterState × Telemetry) :=
  match waitForLimiter ctx b.limiter waited t with
  | none => none
  | some (s, t2) =>
      some (b.wrapped.ReadUserTuple ctx store tupleKey, s.release, t2)

/-- `boundedConcurrencyTupleReader.Read` (lines 55-63). -/
def boundedConcurrencyTupleReader.Read
    (b : boundedConcurrencyTupleReader) (ctx : Context) (store : String)
    (tupleKey : TupleKey) (waited : Int) (t : Telemetry) :
    Option (Except Err TupleIterator × LimiterState × Telemetry) :=
  match waitForLimiter ctx b.limiter waited t with
  | none => none
  | some (s, t2) =>
      some (b.wrapped.Read ctx store tupleKey, s.release, t2)

/-- `boundedConcurrencyTupleReader.ReadUsersetTuples` (lines 65-73). -/
def boundedConcurrencyTupleReader.ReadUsersetTuples
    (b : boundedConcurrencyTupleReader) (ctx : Context) (store : String)
    (filter : ReadUsersetTuplesFilter) (waited : Int) (t : Telemetry) :
    Option (Except Err TupleIterator × LimiterState × Telemetry) :=
  match waitForLimiter ctx b.limiter waited t with
  | none => none
  | some (s, t2) =>
      some (b.wrapped.ReadUsersetTuples ctx store filter, s.release, t2)

/-! ### Concurrency semantics of the bounded reader

A small-step transition system over the phases of a set of concurrent
calls to `Read` / `ReadUserTuple` / `ReadUsersetTuples` on one
`boundedConcurrencyTupleReader` instance. Each call, per the source,
passes through: blocked in `waitForLimiter` (the channel send), then
executing against the wrapped reader with the unit held, then returned
(the deferred `<-b.limiter` ran as the method returned, so the unit is
back before the caller touches the result), then — for the
iterator-returning methods — the caller eventually stops the iterator. -/

/-- Phase of one bounded read call. `executing` is the window between the
successful channel send and the deferred receive: the call is running
against the wrapped reader and holds one unit. `returned` means the method
has returned (unit released) and its iterator, if any, is still open. -/
inductive CallPhase where
  | waiting
  | executing
  | returned
  | stopped
deriving DecidableEq, Repr

/-- Global state: the channel buffer size and the phase of each call. -/
structure SysState where
  capacity : Nat
  calls : List CallPhase
deriving DecidableEq, Repr

/-- Units held on the limiter channel: one per call past its channel send
and before its deferred receive, i.e. per call in phase `executing`. -/
def executingCount (s : SysState) : Nat :=
  s.calls.countP (fun c => c == CallPhase.executing)

/-- Calls that have returned with their iterator still open. -/
def openIteratorCount (s : SysState) : Nat :=
  s.calls.countP (fun c => c == CallPhase.returned)

/-- One scheduler step. `acquire` is the channel send in `waitForLimiter`:
it fires only when the buffer has room (`executingCount s < s.capacity`,
the buffered-channel semantics of `b.limiter <- struct\x7b\x7d\x7b\x7d`).
`finish` is the method returning: the deferred receive gives the unit back
in the same step. `stop` is the caller closing a returned iterator and
involves the limiter not at all. -/
inductive Step : SysState → SysState → Prop where
  | acquire (s : SysState) (i : Nat)
      (h : s.calls.get? i = some CallPhase.waiting)
      (hcap : executingCount s < s.capacity) :
      Step s ⟨s.capacity, s.calls.set i CallPhase.executing⟩
  | finish (s : SysState) (i : Nat)
      (h : s.calls.get? i = some CallPhase.executing) :
      Step s ⟨s.capacity, s.calls.set i CallPhase.returned⟩
  | stop (s : SysState) (i : Nat)
      (h : s.calls.get? i = some CallPhase.returned) :
      Step s ⟨s.capacity, s.calls.set i CallPhase.stopped⟩

/-- Reflexive-transitive closure of `Step`. -/
inductive Reachable : SysState → SysState → Prop where
  | refl (s : SysState) : Reachable s s
  | tail {s t u : SysState} (h : Reachable s t) (hs : Step t u) : Reachable s u

/-- The initial state of `n` simultaneous calls against a reader built by
`NewBoundedConcurrencyTupleReader`: every call blocked at the channel
send, no unit held. -/
def initState (b : boundedConcurrencyTupleReader) (n : Nat) : SysState :=
  { capacity := b.limiter.capacity, calls := List.replicate n CallPhase.waiting }

theorem countP_set_get? {α : Type} (p : α → Bool) (l : List α) (i : Nat)
    (a b : α) (h : l.get? i = some a) :
    (l.set i b).countP p + (if p a then 1 else 0)
      = l.countP p + (if p b then 1 else 0) := by
  induction l generalizing i with
  | nil => simp [List.get?] at h
  | cons x xs ih =>
    cases i with
    | zero =>
      simp [List.get?] at h
      subst h
      simp [List.set, List.countP_cons]
      omega
    | succ j =>
      rw [List.get?_cons_succ] at h
      have := ih j h
      simp [List.set, List.countP_cons]
      omega

theorem step_capacity {s t : SysState} (h : Step s t) : t.capacity = s.capacity := by
  cases h <;> rfl

theorem step_executing_le {s t : SysState} (hst : Step s t)
    (h : executingCount s ≤ s.capacity) : executingCount t ≤ t.capacity := by
  cases hst with
  | acquire i hi hcap =>
    have hc := countP_set_get? (fun c => c == CallPhase.executing) s.calls i
      CallPhase.waiting CallPhase.executing hi
    simp at hc
    simp [executingCount] at *
    omega
  | finish i hi =>
    have hc := countP_set_get? (fun c => c == CallPhase.executing) s.calls i
      CallPhase.executing CallPhase.returned hi
    simp at hc
    simp [executingCount] at *
    omega
  | stop i hi =>
    have hc := countP_set_get? (fun c => c == CallPhase.executing) s.calls i
      CallPhase.returned CallPhase.stopped hi
    simp at hc
    simp [executingCount] at *
    omega

theorem reachable_executing_le {s t : SysState}
    (h : Reachable s t) (h0 : executingCount s ≤ s.capacity) :
    executingCount t ≤ t.capacity := by
  induction h with
  | refl => exact h0
  | tail h hs ih => exact step_executing_le hs ih

theorem reachable_capacity {s t : SysState} (h : Reachable s t) :
    t.capacity = s.capacity := by
  induction h with
  | refl => rfl
  | tail h hs ih => rw [step_capacity hs, ih]

/-! ### Composition root (cmd/openfga/openfga.go) -/

/-- `svcConfig` (openfga.go lines 36-62), with the Go field types mapped
to `Nat`/`Int`/`String` (`RequestTimeout` as a duration in nanoseconds). -/
structure svcConfig where
  DatastoreEngine : String
  DatastoreConnectionURI : String
  DatastoreMaxCacheSize : Nat
  ServiceName : String
  HTTPPort : Nat
  RPCPort : Nat
  MaxTuplesPerWrite : Nat
  MaxTypesPerAuthorizationModel : Nat
  ChangelogHorizonOffset : Int
  ResolveNodeLimit : Nat
  RequestTimeout : Nat
  AuthMethod : String
  PresharedKeys : List String
  IssuerURL : String
  Audience : String
deriving DecidableEq, Repr

/-- The defaults declared in the `svcConfig` struct tags. -/
def defaultSvcConfig : svcConfig :=
  { DatastoreEngine := "memory"
    DatastoreConnectionURI := ""
    DatastoreMaxCacheSize := 100000
    ServiceName := "openfga"
    HTTPPort := 8080
    RPCPort := 8081
    MaxTuplesPerWrite := 100
    MaxTypesPerAuthorizationModel := 100
    ChangelogHorizonOffset := 0
    ResolveNodeLimit := 25
    RequestTimeout := 0
    AuthMethod := "none"
    PresharedKeys := []
    IssuerURL := ""
    Audience := "" }

/-- The datastore value built and decorated by the composition root,
as a syntax tree of the constructors it can invoke:
`memory.New`, `postgres.NewPostgresDatastore`,
`caching.NewCachedOpenFGADatastore`, and (available in
pkg/storage/storagewrappers but, notably, never invoked by openfga.go)
`storagewrappers.NewBoundedConcurrencyTupleReader`. -/
inductive Datastore where
  | memory (maxTuplesPerWrite maxTypesPerAuthorizationModel : Nat)
  | postgres (uri : String)
  | cached (wrapped : Datastore) (maxCacheSize : Nat)
  | boundedConcurrency (wrapped : Datastore) (concurrency : Nat)
deriving DecidableEq, Repr

/-- Whether a decorated datastore stack contains a
`NewBoundedConcurrencyTupleReader` layer anywhere. -/
def Datastore.hasBoundedConcurrencyLayer : Datastore → Bool
  | .memory _ _ => false
  | .postgres _ => false
  | .cached wrapped _ => wrapped.hasBoundedConcurrencyLayer
  | .boundedConcurrency _ _ => true

/-- An authenticator built by the composition root. -/
inductive Authenticator where
  | presharedKey (keys : List String)
  | oidc (issuerURL audience : String)
deriving DecidableEq, Repr

/-- Modelled from the spec: `presharedkey.NewPresharedKeyAuthenticator` is
not under src (only its caller is); per the spec the shared-secret
strategy validates a non-empty secret list at construction and
construction failure is fatal. -/
def NewPresharedKeyAuthenticator (keys : List String) :
    Except String Authenticator :=
  if keys.isEmpty then Except.error "invalid preshared keys"
  else Except.ok (Authenticator.presharedKey keys)

/-- Modelled from the spec: `oidc.NewRemoteOidcAuthenticator` is not under
src; per the spec the federated-identity strategy validates a well-formed
issuer/audience at construction and construction failure is fatal. -/
def NewRemoteOidcAuthenticator (issuerURL audience : String) :
    Except String Authenticator :=
  if issuerURL.isEmpty || audience.isEmpty then
    Except.error "invalid issuer or audience"
  else Except.ok (Authenticator.oidc issuerURL audience)

/-- The environment of effects outside src that `buildServerAndDatastore`
depends on: whether connecting to postgres succeeds. -/
structure BuildEnv where
  postgresOK : Bool
deriving DecidableEq, Repr

/-- Modelled from the spec: `postgres.NewPostgresDatastore` is not under
src; per the spec it builds the relational physical engine from a
connection descriptor and construction failure (ConnectionError) is
fatal. The spec assigns migration application to the composition root, so
engine construction itself performs none. -/
def NewPostgresDatastore (env : BuildEnv) (uri : String) :
    Except String Datastore :=
  if env.postgresOK then Except.ok (Datastore.postgres uri)
  else Except.error "unable to connect"

/-- `memory.New(tracer, maxTuplesPerWrite, maxTypesPerAuthorizationModel)`
— construction of the in-memory engine (infallible). -/
def memoryNew (maxTuplesPerWrite maxTypesPerAuthorizationModel : Nat) :
    Datastore :=
  Datastore.memory maxTuplesPerWrite maxTypesPerAuthorizationModel

/-- The externally visible actions `buildServerAndDatastore` performs, in
order, used to state what the startup sequence does and does not do
(in particular: whether migrations are ever applied). -/
inductive StartupAction where
  | constructMemoryDatastore
  | constructPostgresDatastore
  | applyMigrations
  | constructAuthenticator
  | serverNew
deriving DecidableEq, Repr

/-- The result of `buildServerAndDatastore`: the raw datastore returned to
`main`, the dependencies and config handed to `server.New` (the decorated
datastore, the optional authenticator, and the interceptor list length),
and the trace of startup actions. -/
structure BuildOutput where
  datastore : Datastore
  serverDatastore : Datastore
  authenticator : Option Authenticator
  interceptorCount : Nat
  actions : List StartupAction
deriving DecidableEq, Repr

/-- The engine-selection switch of `buildServerAndDatastore` (openfga.go
lines 129-148): `memory` and `postgres` are the only recognized engine
names; any other name is a fatal configuration error naming the engine.
The Go error format string "storage engine '%s' is unsupported" is
rendered without the quote characters. -/
def resolveDatastore (env : BuildEnv) (config : svcConfig) :
    Except String (Datastore × StartupAction) :=
  match config.DatastoreEngine with
  | "memory" =>
      Except.ok
        (memoryNew config.MaxTuplesPerWrite config.MaxTypesPerAuthorizationModel,
         StartupAction.constructMemoryDatastore)
  | "postgres" =>
      match NewPostgresDatastore env config.DatastoreConnectionURI with
      | Except.ok d => Except.ok (d, StartupAction.constructPostgresDatastore)
      | Except.error e =>
          Except.error ("failed to initialize postgres datastore: " ++ e)
  | other => Except.error ("storage engine " ++ other ++ " is unsupported")

/-- The authentication-method switch of `buildServerAndDatastore`
(openfga.go lines 153-168): `preshared` and `oidc` build an authenticator
(fatal on construction error); the `default` arm of the Go switch sets
`err = nil` and leaves `authenticator` nil for every other value of
`AuthMethod`. -/
def resolveAuthenticator (config : svcConfig) :
    Except String (Option Authenticator) :=
  match config.AuthMethod with
  | "preshared" =>
      match NewPresharedKeyAuthenticator config.PresharedKeys with
      | Except.ok a => Except.ok (some a)
      | Except.error e =>
          Except.error ("failed to initialize authenticator: " ++ e)
  | "oidc" =>
      match NewRemoteOidcAuthenticator config.IssuerURL config.Audience with
      | Except.ok a => Except.ok (some a)
      | Except.error e =>
          Except.error ("failed to initialize authenticator: " ++ e)
  | _ => Except.ok none

/-- `buildServerAndDatastore` (openfga.go lines 116-192): resolve the
engine by name, resolve the authentication method, append one
authentication interceptor only when an authenticator was built, and hand
`server.New` the datastore wrapped by
`caching.NewCachedOpenFGADatastore(datastore, config.DatastoreMaxCacheSize)`.
`server.New` itself is not under src; modelled from the spec as plain
construction with no further failure mode. -/
def buildServerAndDatastore (env : BuildEnv) (config : svcConfig) :
    Except String BuildOutput := do
  let enginePair ← resolveDatastore env config
  let authenticator ← resolveAuthenticator config
  let interceptorCount := match authenticator with
    | some _ => 1
    | none => 0
  let authActions : List StartupAction := match authenticator with
    | some _ => [StartupAction.constructAuthenticator]
    | none => []
  Except.ok
    { datastore := enginePair.1
      serverDatastore := Datastore.cached enginePair.1 config.DatastoreMaxCacheSize
      authenticator := authenticator
      interceptorCount := interceptorCount
      actions := enginePair.2 :: authActions ++ [StartupAction.serverNew] }

/-- The externally visible actions of `main` after logger setup. -/
inductive MainAction where
  | fatalInit (err : String)
  | runServer
  | closeServer
  | closeDatastore
deriving DecidableEq, Repr

/-- `main` (openfga.go lines 64-114), as the sequence of actions taken
around `buildServerAndDatastore`: on a build error, `logger.Fatal` exits
the process — `openFgaServer.Run` is never called and no listener opens;
otherwise the server runs and on return is closed along with the
datastore. -/
def mainActions (env : BuildEnv) (config : svcConfig) : List MainAction :=
  match buildServerAndDatastore env config with
  | Except.error e => [MainAction.fatalInit e]
  | Except.ok _ =>
      [MainAction.runServer, MainAction.closeServer, MainAction.closeDatastore]

/-! ### Migration 005 (src/unnamed/part_001) -/

/-- The ordered statement list of `up005`. -/
def up005Stmts : List String :=
  ["ALTER TABLE tuple ADD COLUMN condition_name TEXT, ADD COLUMN condition_context BYTEA;",
   "ALTER TABLE changelog ADD COLUMN condition_name TEXT, ADD COLUMN condition_context BYTEA;"]

/-- The ordered statement list of `down005`. -/
def down005Stmts : List String :=
  ["ALTER TABLE tuple DROP COLUMN condition_name, DROP COLUMN condition_context;",
   "ALTER TABLE changelog DROP COLUMN condition_name, DROP COLUMN condition_context;"]

/-- The loop body shared by `up005` and `down005`: run each statement in
list order through `exec` (modelling `tx.ExecContext`; `some e` is a
failed execution with error `e`, `none` success), returning on the first
failure. The first component records which statements were actually
executed, in order; the second is the returned error (`none` = the Go
`return nil`). -/
def runStmts (exec : String → Option String) :
    List String → List String × Option String
  | [] => ([], none)
  | stmt :: rest =>
      match exec stmt with
      | some e => ([stmt], some e)
      | none =>
          let tail := runStmts exec rest
          (stmt :: tail.1, tail.2)

/-- `up005(ctx, tx)` (src/unnamed/part_001 lines 10-24). -/
def up005 (exec : String → Option String) : List String × Option String :=
  runStmts exec up005Stmts

/-- `down005(ctx, tx)` (src/unnamed/part_001 lines 26-40). -/
def down005 (exec : String → Option String) : List String × Option String :=
  runStmts exec down005Stmts

/-- The behaviour the spec ascribes to a migration step, written from the
claim: statements run in list order; if any fails, the statements executed
are exactly the successful prefix followed by the first failing statement,
and the step returns that statement's error; if all succeed, every
statement runs and the step returns nil. -/
def firstFailingRun (exec : String → Option String) (stmts : List String) :
    List String × Option String :=
  match stmts.find? (fun s => (exec s).isSome) with
  | none => (stmts, none)
  | some s => (stmts.takeWhile (fun u => (exec u).isNone) ++ [s], exec s)

theorem runStmts_eq_firstFailingRun (exec : String → Option String)
    (stmts : List String) : runStmts exec stmts = firstFailingRun exec stmts := by
  induction stmts with
  | nil => rfl
  | cons stmt rest ih =>
    by_cases h : (exec stmt).isSome
    · match he : exec stmt with
      | some e =>
        simp [runStmts, firstFailingRun, List.find?, List.takeWhile, he]
      | none => rw [he] at h; simp at h
    · match he : exec stmt with
      | some e => rw [he] at h; simp at h
      | none =>
        simp [runStmts, firstFailingRun, List.find?, List.takeWhile, he, ih]
        cases hf : rest.find? (fun s => (exec s).isSome) <;> simp [hf]

/-! ### Helper lemmas and concrete instances -/

theorem countP_replicate_waiting (n : Nat) :
    (List.replicate n CallPhase.waiting).countP
      (fun c => c == CallPhase.executing) = 0 := by
  induction n with
  | zero => rfl
  | succ m ih => simp [List.replicate, List.countP_cons, ih]

theorem resolveDatastore_shape (env : BuildEnv) (config : svcConfig)
    (d : Datastore) (act : StartupAction)
    (h : resolveDatastore env config = Except.ok (d, act)) :
    d.hasBoundedConcurrencyLayer = false ∧
      (act = StartupAction.constructMemoryDatastore ∨
       act = StartupAction.constructPostgresDatastore) := by
  unfold resolveDatastore at h
  split at h
  · simp at h
    obtain ⟨hd, ha⟩ := h
    subst hd; subst ha
    exact ⟨rfl, Or.inl rfl⟩
  · unfold NewPostgresDatastore at h
    by_cases hok : env.postgresOK <;> simp [hok] at h
    obtain ⟨hd, ha⟩ := h
    subst hd; subst ha
    exact ⟨rfl, Or.inr rfl⟩
  · simp at h

theorem buildServerAndDatastore_ok (env : BuildEnv) (config : svcConfig)
    (out : BuildOutput) (h : buildServerAndDatastore env config = Except.ok out) :
    ∃ ep auth, resolveDatastore env config = Except.ok ep ∧
      resolveAuthenticator config = Except.ok auth ∧
      out.datastore = ep.1 ∧
      out.serverDatastore = Datastore.cached ep.1 config.DatastoreMaxCacheSize ∧
      out.authenticator = auth ∧
      out.actions = ep.2 ::
        (match auth with
         | some _ => [StartupAction.constructAuthenticator]
         | none => []) ++ [StartupAction.serverNew] := by
  unfold buildServerAndDatastore at h
  cases hd : resolveDatastore env config with
  | error e => rw [hd] at h; simp [Bind.bind, Except.bind] at h
  | ok ep =>
    rw [hd] at h
    cases ha : resolveAuthenticator config with
    | error e => rw [ha] at h; simp [Bind.bind, Except.bind] at h
    | ok auth =>
      rw [ha] at h
      simp [Bind.bind, Except.bind] at h
      exact ⟨ep, auth, rfl, rfl, by rw [← h], by rw [← h], by rw [← h],
        by rw [← h]; simp⟩

/-- A concrete wrapped reader used to instantiate the theorems. -/
def demoTupleKey : TupleKey :=
  { object := "document:budget", relation := "viewer", user := "user:anne" }

/-- The tuple the demo reader serves. -/
def demoTuple : Tuple := { key := demoTupleKey }

/-- A concrete userset filter. -/
def demoFilter : ReadUsersetTuplesFilter :=
  { object := "document:budget", relation := "viewer" }

/-- A wrapped engine answering every read with `demoTuple`. -/
def demoReader : RelationshipTupleReader :=
  { Read := fun _ _ _ => Except.ok [demoTuple]
    ReadUserTuple := fun _ _ _ => Except.ok demoTuple
    ReadUsersetTuples := fun _ _ _ => Except.ok [demoTuple] }

/-- A live (not canceled) context on span 1. -/
def demoCtx : Context := { canceled := false, span := 1 }

/-- A context whose cancellation signal has fired, on span 7. -/
def canceledCtx : Context := { canceled := true, span := 7 }

/-- A bounded reader with capacity 1 and the unit free. -/
def demoReaderFree : boundedConcurrencyTupleReader :=
  { wrapped := demoReader, limiter := { capacity := 1, held := 0 } }

/-- A bounded reader with capacity 1 whose only unit is held by another
in-flight call: a further channel send blocks. -/
def demoReaderBlocked : boundedConcurrencyTupleReader :=
  { wrapped := demoReader, limiter := { capacity := 1, held := 1 } }

/-- Telemetry after one wait of 0 ms on span 1. -/
def demoTelemetryAfter : Telemetry :=
  { histObservations := [0]
    spanAttrs := [(1, timeWaitingSpanAttribute, 0)] }

/-- `defaultSvcConfig` with the postgres engine selected. -/
def postgresConfig : svcConfig :=
  { defaultSvcConfig with
      DatastoreEngine := "postgres"
      DatastoreConnectionURI := "postgres://uri" }

/-- `defaultSvcConfig` with an engine name outside the recognized set. -/
def mysqlConfig : svcConfig :=
  { defaultSvcConfig with DatastoreEngine := "mysql" }

/-- `defaultSvcConfig` with an unrecognized authentication method. -/
def basicAuthConfig : svcConfig :=
  { defaultSvcConfig with AuthMethod := "basic" }

/-- The output `buildServerAndDatastore` produces for `postgresConfig`
when the connection succeeds. -/
def postgresBuildOutput : BuildOutput :=
  { datastore := Datastore.postgres "postgres://uri"
    serverDatastore := Datastore.cached (Datastore.postgres "postgres://uri") 100000
    authenticator := none
    interceptorCount := 0
    actions := [StartupAction.constructPostgresDatastore, StartupAction.serverNew] }

/-- The output `buildServerAndDatastore` produces for `defaultSvcConfig`. -/
def memoryBuildOutput : BuildOutput :=
  { datastore := Datastore.memory 100 100
    serverDatastore := Datastore.cached (Datastore.memory 100 100) 100000
    authenticator := none
    interceptorCount := 0
    actions := [StartupAction.constructMemoryDatastore, StartupAction.serverNew] }

theorem resolveDatastore_unsupported (env : BuildEnv) (config : svcConfig)
    (h1 : config.DatastoreEngine ≠ "memory")
    (h2 : config.DatastoreEngine ≠ "postgres") :
    resolveDatastore env config
      = Except.error
          ("storage engine " ++ config.DatastoreEngine ++ " is unsupported") := by
  unfold resolveDatastore
  split
  · exact absurd (by assumption) h1
  · exact absurd (by assumption) h2
  · rfl

theorem resolveAuthenticator_default (config : svcConfig)
    (h1 : config.AuthMethod ≠ "preshared") (h2 : config.AuthMethod ≠ "oidc") :
    resolveAuthenticator config = Except.ok none := by
  unfold resolveAuthenticator
  split
  · exact absurd (by assumption) h1
  · exact absurd (by assumption) h2
  · rfl

/-- Initial state for the over-capacity iterator schedule: two calls, one
unit of capacity. -/
def c10Init : SysState :=
  { capacity := 1, calls := [CallPhase.waiting, CallPhase.waiting] }

/-- Final state of that schedule: both calls have returned and both
iterators are open at once. -/
def c10Final : SysState :=
  { capacity := 1, calls := [CallPhase.returned, CallPhase.returned] }

/-! ### Claim theorems -/

/-- Claim C1: for every capacity C passed to
`NewBoundedConcurrencyTupleReader` and every set of concurrent calls to
`Read`, `ReadUserTuple`, or `ReadUsersetTuples` on that reader instance,
at most C of those calls are executing against the wrapped reader at any
instant: each call acquires one unit of the limiter before delegating, and
in every state reachable from the calls all blocked at the channel send
the count of held units (the executing calls) never exceeds C. -/
theorem claim_C1_concurrency_bound (wrapped : RelationshipTupleReader)
    (C n : Nat) (s : SysState)
    (h : Reachable (initState (NewBoundedConcurrencyTupleReader wrapped C) n) s) :
    executingCount s ≤ C := by
  have h0 : executingCount (initState (NewBoundedConcurrencyTupleReader wrapped C) n)
      ≤ (initState (NewBoundedConcurrencyTupleReader wrapped C) n).capacity := by
    simp [initState, NewBoundedConcurrencyTupleReader, executingCount,
      countP_replicate_waiting]
  have hle := reachable_executing_le h h0
  have hcap := reachable_capacity h
  rw [hcap] at hle
  simpa [initState, NewBoundedConcurrencyTupleReader] using hle

/-- Witness for C1 at capacity 2 with 3 simultaneous calls, in the
initial state. -/
theorem claim_C1_concurrency_bound_witness :
    executingCount (initState (NewBoundedConcurrencyTupleReader demoReader 2) 3) ≤ 2 :=
  claim_C1_concurrency_bound demoReader 2 3
    (initState (NewBoundedConcurrencyTupleReader demoReader 2) 3)
    (Reachable.refl _)

/-- The C2 claim instantiated at a concrete input: a `ReadUserTuple` call
whose context has been canceled while the limiter is full completes
(returns at all, as the claim says it returns the context error
immediately) rather than remaining blocked on the channel send. -/
def c2ClaimAtDemo : Prop :=
  (demoReaderBlocked.ReadUserTuple canceledCtx "store0" demoTupleKey 0
      Telemetry.empty).isSome = true

/-- Claim C2 is false on the code: `waitForLimiter` sends on the limiter
channel with no select on the context, so a call with a canceled context
and a full limiter stays blocked instead of returning the context error
(first conjunct); and cancellation is ignored entirely — with a free unit
the canceled call delegates and returns the wrapped reader result, not a
cancellation error (second conjunct). -/
theorem claim_C2_counterexample :
    ¬ c2ClaimAtDemo ∧
    demoReaderFree.ReadUserTuple canceledCtx "store0" demoTupleKey 0 Telemetry.empty
      = some (Except.ok demoTuple, { capacity := 1, held := 0 },
          { histObservations := [0]
            spanAttrs := [(7, timeWaitingSpanAttribute, 0)] }) := by
  constructor
  · unfold c2ClaimAtDemo
    decide
  · rfl

/-- Claim C2 (amended): a call blocked acquiring a unit does not observe
the context cancellation signal. Each of the three read methods completes
exactly when the limiter has a free unit — independent of the canceled
flag of the context — and on completion returns the wrapped reader result
verbatim (never a context error), with the held count at return equal to
the held count at entry (the unit is released, zero units consumed net). -/
theorem claim_C2_amended (b : boundedConcurrencyTupleReader) (ctx : Context)
    (store : String) (k : TupleKey) (f : ReadUsersetTuplesFilter) (w : Int)
    (t : Telemetry) :
    b.ReadUserTuple ctx store k w t =
      (if b.limiter.held < b.limiter.capacity
       then some (b.wrapped.ReadUserTuple ctx store k, b.limiter,
          { histObservations := t.histObservations ++ [w]
            spanAttrs := t.spanAttrs ++ [(ctx.span, timeWaitingSpanAttribute, w)] })
       else none) ∧
    b.Read ctx store k w t =
      (if b.limiter.held < b.limiter.capacity
       then some (b.wrapped.Read ctx store k, b.limiter,
          { histObservations := t.histObservations ++ [w]
            spanAttrs := t.spanAttrs ++ [(ctx.span, timeWaitingSpanAttribute, w)] })
       else none) ∧
    b.ReadUsersetTuples ctx store f w t =
      (if b.limiter.held < b.limiter.capacity
       then some (b.wrapped.ReadUsersetTuples ctx store f, b.limiter,
          { histObservations := t.histObservations ++ [w]
            spanAttrs := t.spanAttrs ++ [(ctx.span, timeWaitingSpanAttribute, w)] })
       else none) := by
  unfold boundedConcurrencyTupleReader.ReadUserTuple
    boundedConcurrencyTupleReader.Read
    boundedConcurrencyTupleReader.ReadUsersetTuples
    waitForLimiter LimiterState.tryAcquire LimiterState.release
  by_cases hc : b.limiter.held < b.limiter.capacity <;> simp [hc]

/-- Claim C5: for every call to `Read`, `ReadUserTuple`, or
`ReadUsersetTuples` on the bounded reader, with any context, store and
filter, the result (tuple or iterator) and error returned are exactly the
wrapped reader result for the same arguments, unmodified. -/
theorem claim_C5_passthrough (b : boundedConcurrencyTupleReader)
    (ctx : Context) (store : String) (k : TupleKey)
    (f : ReadUsersetTuplesFilter) (w : Int) (t : Telemetry)
    (r1 : Except Err TupleIterator) (r2 : Except Err Tuple)
    (r3 : Except Err TupleIterator) (s1 s2 s3 : LimiterState)
    (t1 t2 t3 : Telemetry)
    (h1 : b.Read ctx store k w t = some (r1, s1, t1))
    (h2 : b.ReadUserTuple ctx store k w t = some (r2, s2, t2))
    (h3 : b.ReadUsersetTuples ctx store f w t = some (r3, s3, t3)) :
    r1 = b.wrapped.Read ctx store k ∧
    r2 = b.wrapped.ReadUserTuple ctx store k ∧
    r3 = b.wrapped.ReadUsersetTuples ctx store f := by
  unfold boundedConcurrencyTupleReader.Read at h1
  unfold boundedConcurrencyTupleReader.ReadUserTuple at h2
  unfold boundedConcurrencyTupleReader.ReadUsersetTuples at h3
  cases hw : waitForLimiter ctx b.limiter w t with
  | none => rw [hw] at h1; simp at h1
  | some p =>
    rw [hw] at h1 h2 h3
    simp at h1 h2 h3
    exact ⟨h1.1.symm, h2.1.symm, h3.1.symm⟩

/-- Witness for C5 at a concrete bounded reader with a free unit. -/
theorem claim_C5_passthrough_witness :
    (Except.ok [demoTuple] : Except Err TupleIterator)
        = demoReaderFree.wrapped.Read demoCtx "store0" demoTupleKey ∧
    (Except.ok demoTuple : Except Err Tuple)
        = demoReaderFree.wrapped.ReadUserTuple demoCtx "store0" demoTupleKey ∧
    (Except.ok [demoTuple] : Except Err TupleIterator)
        = demoReaderFree.wrapped.ReadUsersetTuples demoCtx "store0" demoFilter :=
  claim_C5_passthrough demoReaderFree demoCtx "store0" demoTupleKey demoFilter
    0 Telemetry.empty
    (Except.ok [demoTuple]) (Except.ok demoTuple) (Except.ok [demoTuple])
    { capacity := 1, held := 0 } { capacity := 1, held := 0 }
    { capacity := 1, held := 0 }
    demoTelemetryAfter demoTelemetryAfter demoTelemetryAfter rfl rfl rfl

/-- Claim C8: per bounded-wait event exactly one wait-duration observation
is emitted: the wait in milliseconds is observed once on
`boundedReadDelayMsHistogram`, whose bucket boundaries are
\x7b1, 3, 5, 10, 25, 50, 100, 1000, 5000\x7d, and the same value is set as
an integer-milliseconds attribute with key `time_waiting` on the span of
the calling context. -/
theorem claim_C8_wait_telemetry (ctx : Context) (s s2 : LimiterState)
    (w : Int) (t t2 : Telemetry)
    (h : waitForLimiter ctx s w t = some (s2, t2)) :
    boundedReadDelayMsHistogram.buckets = [1, 3, 5, 10, 25, 50, 100, 1000, 5000] ∧
    timeWaitingSpanAttribute = "time_waiting" ∧
    t2.histObservations = t.histObservations ++ [w] ∧
    t2.spanAttrs = t.spanAttrs ++ [(ctx.span, timeWaitingSpanAttribute, w)] := by
  unfold waitForLimiter LimiterState.tryAcquire at h
  by_cases hc : s.held < s.capacity <;> simp [hc] at h
  refine ⟨rfl, rfl, ?_, ?_⟩ <;> rw [← h.2]

/-- Witness for C8 at a concrete acquire of a free unit after a 0 ms wait. -/
theorem claim_C8_wait_telemetry_witness :
    boundedReadDelayMsHistogram.buckets = [1, 3, 5, 10, 25, 50, 100, 1000, 5000] ∧
    timeWaitingSpanAttribute = "time_waiting" ∧
    demoTelemetryAfter.histObservations = Telemetry.empty.histObservations ++ [0] ∧
    demoTelemetryAfter.spanAttrs
      = Telemetry.empty.spanAttrs ++ [(demoCtx.span, timeWaitingSpanAttribute, 0)] :=
  claim_C8_wait_telemetry demoCtx { capacity := 1, held := 0 }
    { capacity := 1, held := 1 } 0 Telemetry.empty demoTelemetryAfter rfl

/-- Claim C10: for `Read` (and `ReadUsersetTuples`, identical by
`claim_C2_amended`-style unfolding) the acquired unit is released when the
call returns the iterator, before the iterator is consumed: the limiter
state returned with the iterator already has the unit given back (first
conjunct). Hence the bound limits concurrent iterator-producing calls,
not open iterators: with capacity 1, a schedule of two calls reaches a
state with both iterators open at once (remaining conjuncts). -/
theorem claim_C10_release_before_consumption
    (b : boundedConcurrencyTupleReader) (ctx : Context) (store : String)
    (k : TupleKey) (w : Int) (t : Telemetry)
    (r : Except Err TupleIterator) (s2 : LimiterState) (t2 : Telemetry)
    (h : b.Read ctx store k w t = some (r, s2, t2)) :
    s2.held = b.limiter.held ∧
    Reachable c10Init c10Final ∧
    openIteratorCount c10Final = 2 ∧
    c10Final.capacity = 1 := by
  refine ⟨?_, ?_, by decide, rfl⟩
  · unfold boundedConcurrencyTupleReader.Read waitForLimiter
      LimiterState.tryAcquire LimiterState.release at h
    by_cases hc : b.limiter.held < b.limiter.capacity <;> simp [hc] at h
    rw [← h.2.1]
  · have st1 : Step c10Init
        ⟨1, [CallPhase.executing, CallPhase.waiting]⟩ :=
      Step.acquire c10Init 0 rfl (by decide)
    have st2 : Step ⟨1, [CallPhase.executing, CallPhase.waiting]⟩
        ⟨1, [CallPhase.returned, CallPhase.waiting]⟩ :=
      Step.finish ⟨1, [CallPhase.executing, CallPhase.waiting]⟩ 0 rfl
    have st3 : Step ⟨1, [CallPhase.returned, CallPhase.waiting]⟩
        ⟨1, [CallPhase.returned, CallPhase.executing]⟩ :=
      Step.acquire ⟨1, [CallPhase.returned, CallPhase.waiting]⟩ 1 rfl (by decide)
    have st4 : Step ⟨1, [CallPhase.returned, CallPhase.executing]⟩ c10Final :=
      Step.finish ⟨1, [CallPhase.returned, CallPhase.executing]⟩ 1 rfl
    exact Reachable.tail
      (Reachable.tail (Reachable.tail (Reachable.tail (Reachable.refl _) st1) st2)
        st3) st4

/-- Claim C3 is false on the code: with the default configuration the
composition root hands `server.New` the engine wrapped only by the caching
reader — `buildServerAndDatastore` never inserts a
`NewBoundedConcurrencyTupleReader` layer, so the claimed stack
Physical Engine → Concurrency-Bounded Reader → Caching Reader does not
occur (and `svcConfig` declares no concurrency-bound option). -/
theorem claim_C3_counterexample :
    (buildServerAndDatastore { postgresOK := true } defaultSvcConfig).map
        (fun out => out.serverDatastore)
      = Except.ok (Datastore.cached (Datastore.memory 100 100) 100000) ∧
    (buildServerAndDatastore { postgresOK := true } defaultSvcConfig).map
        (fun out => out.serverDatastore.hasBoundedConcurrencyLayer)
      = Except.ok false :=
  ⟨rfl, rfl⟩

/-- Claim C3 (amended): for every successful build, the composition root
builds the reader stack Physical Engine → Caching Reader with the
configured `DatastoreMaxCacheSize`; no Concurrency-Bounded Reader layer
appears anywhere in the stack (and `svcConfig` declares no
concurrency-bound option). -/
theorem claim_C3_composition_amended (env : BuildEnv) (config : svcConfig)
    (out : BuildOutput) (h : buildServerAndDatastore env config = Except.ok out) :
    out.serverDatastore
        = Datastore.cached out.datastore config.DatastoreMaxCacheSize ∧
    out.serverDatastore.hasBoundedConcurrencyLayer = false := by
  obtain ⟨ep, auth, hd, ha, hds, hsd, _, _⟩ :=
    buildServerAndDatastore_ok env config out h
  obtain ⟨hb, _⟩ := resolveDatastore_shape env config ep.1 ep.2 hd
  refine ⟨by rw [hsd, hds], ?_⟩
  rw [hsd]
  simpa [Datastore.hasBoundedConcurrencyLayer] using hb

/-- Witness for the amended C3 at the default configuration. -/
theorem claim_C3_composition_amended_witness :
    memoryBuildOutput.serverDatastore
        = Datastore.cached memoryBuildOutput.datastore
            defaultSvcConfig.DatastoreMaxCacheSize ∧
    memoryBuildOutput.serverDatastore.hasBoundedConcurrencyLayer = false :=
  claim_C3_composition_amended { postgresOK := true } defaultSvcConfig
    memoryBuildOutput rfl

/-- Claim C4 is false on the code: with the postgres engine selected and
construction succeeding, the startup actions of the composition root are
engine construction followed by server construction — no migration
application occurs anywhere in `buildServerAndDatastore` or `main` before
serving. -/
theorem claim_C4_counterexample :
    buildServerAndDatastore { postgresOK := true } postgresConfig
      = Except.ok postgresBuildOutput ∧
    StartupAction.applyMigrations ∉ postgresBuildOutput.actions :=
  ⟨rfl, by decide⟩

/-- Claim C4 (amended): the composition root applies no migrations at
startup for any engine: no successful build trace contains a
migration-application action (for postgres it only constructs the
datastore and the server). -/
theorem claim_C4_no_migrations_amended (env : BuildEnv) (config : svcConfig)
    (out : BuildOutput) (h : buildServerAndDatastore env config = Except.ok out) :
    StartupAction.applyMigrations ∉ out.actions := by
  obtain ⟨ep, auth, hd, ha, _, _, _, hacts⟩ :=
    buildServerAndDatastore_ok env config out h
  obtain ⟨_, hact⟩ := resolveDatastore_shape env config ep.1 ep.2 hd
  rw [hacts]
  rcases hact with h1 | h1 <;> rw [h1] <;> cases auth <;> simp

/-- Witness for the amended C4 at the concrete postgres configuration. -/
theorem claim_C4_no_migrations_amended_witness :
    StartupAction.applyMigrations ∉ postgresBuildOutput.actions :=
  claim_C4_no_migrations_amended { postgresOK := true } postgresConfig
    postgresBuildOutput rfl

/-- Claim C6: for each of `up005` and `down005`, the statements execute in
list order and the first statement whose execution fails aborts the step:
the statements executed are exactly the successful prefix plus the first
failing statement, whose error the step returns; if every statement
succeeds the step executes them all and returns nil. (`firstFailingRun` is
that behaviour written from the claim; `exec` models `tx.ExecContext`.) -/
theorem claim_C6_migration_step_order (exec : String → Option String) :
    up005 exec = firstFailingRun exec up005Stmts ∧
    down005 exec = firstFailingRun exec down005Stmts :=
  ⟨runStmts_eq_firstFailingRun exec up005Stmts,
   runStmts_eq_firstFailingRun exec down005Stmts⟩

/-- Claim C7: if the configured datastore engine name is not one of the
fixed enumerated set (memory, postgres), startup fails with a fatal
configuration error before any network listener opens:
`buildServerAndDatastore` returns an error naming the unsupported engine,
and `main` aborts via the fatal log without ever calling `Run`. -/
theorem claim_C7_unsupported_engine (env : BuildEnv) (config : svcConfig)
    (h1 : config.DatastoreEngine ≠ "memory")
    (h2 : config.DatastoreEngine ≠ "postgres") :
    buildServerAndDatastore env config
        = Except.error
            ("storage engine " ++ config.DatastoreEngine ++ " is unsupported") ∧
    mainActions env config
        = [MainAction.fatalInit
            ("storage engine " ++ config.DatastoreEngine ++ " is unsupported")] ∧
    MainAction.runServer ∉ mainActions env config := by
  have hb : buildServerAndDatastore env config
      = Except.error
          ("storage engine " ++ config.DatastoreEngine ++ " is unsupported") := by
    unfold buildServerAndDatastore
    rw [resolveDatastore_unsupported env config h1 h2]
    rfl
  refine ⟨hb, ?_, ?_⟩
  · unfold mainActions
    rw [hb]
  · unfold mainActions
    rw [hb]
    simp

/-- Witness for C7 at the engine name mysql. -/
theorem claim_C7_unsupported_engine_witness :
    buildServerAndDatastore { postgresOK := true } mysqlConfig
        = Except.error
            ("storage engine " ++ mysqlConfig.DatastoreEngine ++ " is unsupported") ∧
    mainActions { postgresOK := true } mysqlConfig
        = [MainAction.fatalInit
            ("storage engine " ++ mysqlConfig.DatastoreEngine ++ " is unsupported")] ∧
    MainAction.runServer ∉ mainActions { postgresOK := true } mysqlConfig :=
  claim_C7_unsupported_engine { postgresOK := true } mysqlConfig
    (by decide) (by decide)

/-- Claim C9: if the configured authentication method is any string other
than `preshared` or `oidc` — not just `none` — the composition root
silently proceeds with no authentication: the build succeeds (given a
constructible engine), no authenticator is constructed, and no
authentication interceptor is installed. -/
theorem claim_C9_unknown_auth_silent (env : BuildEnv) (config : svcConfig)
    (he : config.DatastoreEngine = "memory"
        ∨ (config.DatastoreEngine = "postgres" ∧ env.postgresOK = true))
    (h1 : config.AuthMethod ≠ "preshared") (h2 : config.AuthMethod ≠ "oidc") :
    (buildServerAndDatastore env config).map (fun out => out.authenticator)
      = Except.ok none ∧
    (buildServerAndDatastore env config).map (fun out => out.interceptorCount)
      = Except.ok 0 ∧
    (buildServerAndDatastore env config).map
        (fun out => out.actions.contains StartupAction.constructAuthenticator)
      = Except.ok false := by
  have hrd : ∃ ep, resolveDatastore env config = Except.ok ep := by
    rcases he with hm | ⟨hp, hok⟩
    · refine ⟨(memoryNew config.MaxTuplesPerWrite
        config.MaxTypesPerAuthorizationModel,
        StartupAction.constructMemoryDatastore), ?_⟩
      unfold resolveDatastore
      rw [hm]
      rfl
    · refine ⟨(Datastore.postgres config.DatastoreConnectionURI,
        StartupAction.constructPostgresDatastore), ?_⟩
      unfold resolveDatastore NewPostgresDatastore
      rw [hp, hok]
      rfl
  obtain ⟨ep, hrd⟩ := hrd
  have hra := resolveAuthenticator_default config h1 h2
  have hb : buildServerAndDatastore env config
      = Except.ok
          { datastore := ep.1
            serverDatastore := Datastore.cached ep.1 config.DatastoreMaxCacheSize
            authenticator := none
            interceptorCount := 0
            actions := [ep.2, StartupAction.serverNew] } := by
    unfold buildServerAndDatastore
    rw [hrd, hra]
    rfl
  obtain ⟨_, hact⟩ := resolveDatastore_shape env config ep.1 ep.2 hrd
  refine ⟨by rw [hb]; rfl, by rw [hb]; rfl, ?_⟩
  rcases hact with h3 | h3 <;> rw [hb, h3] <;> rfl

/-- Witness for C9 at the unrecognized method name basic. -/
theorem claim_C9_unknown_auth_silent_witness :
    (buildServerAndDatastore { postgresOK := true } basicAuthConfig).map
        (fun out => out.authenticator) = Except.ok none ∧
    (buildServerAndDatastore { postgresOK := true } basicAuthConfig).map
        (fun out => out.interceptorCount) = Except.ok 0 ∧
    (buildServerAndDatastore { postgresOK := true } basicAuthConfig).map
        (fun out => out.actions.contains StartupAction.constructAuthenticator)
      = Except.ok false :=
  claim_C9_unknown_auth_silent { postgresOK := true } basicAuthConfig
    (Or.inl rfl) (by decide) (by decide)

/-- Witness for C10 at a concrete `Read` on a bounded reader with a free
unit. -/
theorem claim_C10_release_before_consumption_witness :
    ({ capacity := 1, held := 0 } : LimiterState).held
        = demoReaderFree.limiter.held ∧
    Reachable c10Init c10Final ∧
    openIteratorCount c10Final = 2 ∧
    c10Final.capacity = 1 :=
  claim_C10_release_before_consumption demoReaderFree demoCtx "store0"
    demoTupleKey 0 Telemetry.empty (Except.ok [demoTuple])
    { capacity := 1, held := 0 } demoTelemetryAfter rfl

end OpenFGA
